import Mathlib

/-!
Shallow embedding of `packets.py` (pywall): the IPv4 decoder, the three
transport-layer decoders (TCP, UDP, ICMP), the payload dispatcher, the
flow-key extractor, and the ICMP rendering tables.

Conventions of the embedding:
* a byte buffer is a `List Nat` (each element a byte value);
* `struct.unpack` failures (slice shorter than the format requires) and
  `socket.inet_ntoa` failures (argument not exactly 4 bytes) are modelled by
  `Option`: a decoder returns `none` exactly when the Python code raises;
* a Python slice `buff[a:b]` (with nonnegative bounds) is `pySlice`, which
  clamps like Python and never fails;
* `socket.inet_ntoa` is modelled as returning the 4 address bytes themselves
  (a 4-tuple) rather than a dotted-quad string: the dotted rendering is an
  injective display concern and plays no role in the decoded structure;
* Python ints stored for the TCP flag attributes are kept as `Nat`; the
  Python boolean reading of such an attribute is `≠ 0` (truthiness);
* the ICMP name dictionaries have heterogeneous keys in Python (ints in
  `ICMP_TYPES`, pairs in `ICMP_CODES`); keys are embedded as the sum type
  `PyKey` so that the lookup the code actually performs can be expressed.
-/

/-- Python slice `l[a:b]` for nonnegative bounds: elements at indices
`a ≤ i < min b (length l)`. -/
def pySlice (l : List Nat) (a b : Nat) : List Nat :=
  (l.take b).drop a

/-- Big-endian 16-bit read at index `i`, as done by `unpack` with format `H`;
fails when a needed byte is out of range, as `unpack` does on a short slice. -/
def read16 (buff : List Nat) (i : Nat) : Option Nat :=
  (buff[i]?).bind fun a =>
  (buff[i+1]?).bind fun b =>
  some (a * 256 + b)

/-- Big-endian 32-bit read at index `i`, as done by `unpack` with format `I`. -/
def read32 (buff : List Nat) (i : Nat) : Option Nat :=
  (read16 buff i).bind fun hi =>
  (read16 buff (i+2)).bind fun lo =>
  some (hi * 65536 + lo)

/-- Model of `socket.inet_ntoa`: succeeds on exactly 4 bytes (raising
otherwise in Python); the address is kept as its 4 raw bytes. -/
def inet_ntoa : List Nat → Option (Nat × Nat × Nat × Nat)
  | [a, b, c, d] => some (a, b, c, d)
  | _ => none

/-- Protocol number of TCP (`socket.IPPROTO_TCP`). -/
def IPPROTO_TCP : Nat := 6
/-- Protocol number of UDP (`socket.IPPROTO_UDP`). -/
def IPPROTO_UDP : Nat := 17
/-- Protocol number of ICMP (`socket.IPPROTO_ICMP`). -/
def IPPROTO_ICMP : Nat := 1

/-- TCPPacket: the fields set by `TCPPacket._parse_header`. -/
structure TCPPacket where
  src_port : Nat
  dst_port : Nat
  seq_num : Nat
  ack_num : Nat
  data_offset : Nat
  flag_ns : Nat
  flag_cwr : Nat
  flag_ece : Nat
  flag_urg : Nat
  flag_ack : Nat
  flag_psh : Nat
  flag_rst : Nat
  flag_syn : Nat
  flag_fin : Nat
  win_size : Nat
  checksum : Nat
  urg_ptr : Nat
  options : List Nat
  total_length : Nat
deriving DecidableEq

/-- Embedding of `TCPPacket._parse_header` (called from `TCPPacket.__init__`). -/
def TCPPacket.parse (buff : List Nat) : Option TCPPacket :=
  (read16 buff 0).bind fun sp =>
  (read16 buff 2).bind fun dp =>
  (read32 buff 4).bind fun seq =>
  (read32 buff 8).bind fun ack =>
  (read16 buff 12).bind fun flags =>
  (read16 buff 14).bind fun win =>
  (read16 buff 16).bind fun ck =>
  (read16 buff 18).bind fun up =>
  some { src_port := sp, dst_port := dp, seq_num := seq, ack_num := ack,
         data_offset := flags &&& 0xF000,
         flag_ns := flags &&& 0x0100,
         flag_cwr := flags &&& 0x0080,
         flag_ece := flags &&& 0x0040,
         flag_urg := flags &&& 0x0020,
         flag_ack := flags &&& 0x0010,
         flag_psh := flags &&& 0x0008,
         flag_rst := flags &&& 0x0004,
         flag_syn := flags &&& 0x0002,
         flag_fin := flags &&& 0x0001,
         win_size := win, checksum := ck, urg_ptr := up,
         options := pySlice buff 20 ((flags &&& 0xF000) * 4),
         total_length := buff.length }

/-- TCPPacket.get_header_len. -/
def TCPPacket.get_header_len (p : TCPPacket) : Nat :=
  p.data_offset * 4

/-- TCPPacket.get_data_len (Python int subtraction may go negative). -/
def TCPPacket.get_data_len (p : TCPPacket) : Int :=
  (p.total_length : Int) - (p.get_header_len : Int)

/-- UDPPacket: the fields set by `UDPPacket._parse_header`. -/
structure UDPPacket where
  src_port : Nat
  dst_port : Nat
  length : Nat
  checksum : Nat
  total_length : Nat
deriving DecidableEq

/-- Embedding of `UDPPacket._parse_header`. -/
def UDPPacket.parse (buff : List Nat) : Option UDPPacket :=
  (read16 buff 0).bind fun sp =>
  (read16 buff 2).bind fun dp =>
  (read16 buff 4).bind fun ln =>
  (read16 buff 6).bind fun ck =>
  some { src_port := sp, dst_port := dp, length := ln, checksum := ck,
         total_length := buff.length }

/-- UDPPacket.get_header_len. -/
def UDPPacket.get_header_len (_ : UDPPacket) : Nat := 8

/-- UDPPacket.get_data_len. -/
def UDPPacket.get_data_len (p : UDPPacket) : Int :=
  (p.total_length : Int) - 8

/-- ICMPPacket: the fields set by `ICMPPacket._parse_header`. -/
structure ICMPPacket where
  type : Nat
  code : Nat
  checksum : Nat
  rest : List Nat
deriving DecidableEq

/-- Embedding of `ICMPPacket._parse_header`: `unpack` on `buf[0:4]` (so it
fails below 4 bytes), then `rest = buf[4:8]` which is a lenient slice. -/
def ICMPPacket.parse (buf : List Nat) : Option ICMPPacket :=
  (buf[0]?).bind fun ty =>
  (buf[1]?).bind fun co =>
  (read16 buf 2).bind fun ck =>
  some { type := ty, code := co, checksum := ck, rest := pySlice buf 4 8 }

/-- ICMPPacket.get_header_len. -/
def ICMPPacket.get_header_len (_ : ICMPPacket) : Nat := 4

/-- ICMPPacket.get_data_len. -/
def ICMPPacket.get_data_len (_ : ICMPPacket) : Int := 4

/-- Tagged union of the transport payload kinds an IPPacket may carry. -/
inductive TLPacket where
  | tcp : TCPPacket → TLPacket
  | udp : UDPPacket → TLPacket
  | icmp : ICMPPacket → TLPacket
deriving DecidableEq

/-- Embedding of `payload_builder`: dispatch on the protocol number; an
unsupported protocol yields `some none` (absent payload, not an error), while
a failing transport decoder propagates failure (`none`). -/
def payload_builder (payload_buff : List Nat) (protocol : Nat) :
    Option (Option TLPacket) :=
  if protocol = IPPROTO_TCP then
    (TCPPacket.parse payload_buff).bind fun p => some (some (TLPacket.tcp p))
  else if protocol = IPPROTO_UDP then
    (UDPPacket.parse payload_buff).bind fun p => some (some (TLPacket.udp p))
  else if protocol = IPPROTO_ICMP then
    (ICMPPacket.parse payload_buff).bind fun p => some (some (TLPacket.icmp p))
  else
    some none

/-- IPPacket: the fields set by `IPPacket._parse_header` plus the payload
set by `IPPacket.__init__`. -/
structure IPPacket where
  version : Nat
  ihl : Nat
  dscp : Nat
  ecn : Nat
  total_length : Nat
  id : Nat
  flags : Nat
  frag_offset : Nat
  ttl : Nat
  protocol : Nat
  checksum : Nat
  src_ip : Nat × Nat × Nat × Nat
  dst_ip : Nat × Nat × Nat × Nat
  options : List Nat
  payload : Option TLPacket
deriving DecidableEq

/-- Embedding of `IPPacket._parse_header`; the payload field is not set by
this step (it is filled in by `IPPacket.decode`, as in `__init__`). -/
def IPPacket.parseHeader (buff : List Nat) : Option IPPacket :=
  (buff[0]?).bind fun v_ihl =>
  (buff[1]?).bind fun dscp_ecn =>
  (read16 buff 2).bind fun tl =>
  (read16 buff 4).bind fun idf =>
  (read16 buff 6).bind fun flag_frag =>
  (buff[8]?).bind fun ttl =>
  (buff[9]?).bind fun proto =>
  (read16 buff 10).bind fun ck =>
  (inet_ntoa (pySlice buff 12 16)).bind fun src =>
  (inet_ntoa (pySlice buff 16 20)).bind fun dst =>
  some { version := (v_ihl >>> 4) &&& 0xF,
         ihl := v_ihl &&& 0xF,
         dscp := (dscp_ecn >>> 3) &&& 0x1F,
         ecn := dscp_ecn &&& 0x7,
         total_length := tl,
         id := idf,
         flags := (flag_frag >>> 13) &&& 0x7,
         frag_offset := flag_frag &&& 0x1FFF,
         ttl := ttl, protocol := proto, checksum := ck,
         src_ip := src, dst_ip := dst,
         options := pySlice buff 20 ((v_ihl &&& 0xF) * 4),
         payload := none }

/-- IPPacket.get_header_len. -/
def IPPacket.get_header_len (p : IPPacket) : Nat :=
  p.ihl * 4

/-- IPPacket.get_data_len. -/
def IPPacket.get_data_len (p : IPPacket) : Int :=
  (p.total_length : Int) - (p.ihl : Int) * 4

/-- Embedding of `IPPacket.__init__`: parse the header, then hand the rest of
the buffer to `payload_builder`; a raising transport decoder propagates, so
no `IPPacket` is produced in that case. -/
def IPPacket.decode (buff : List Nat) : Option IPPacket :=
  match IPPacket.parseHeader buff with
  | none => none
  | some p =>
    match payload_builder (buff.drop p.get_header_len) p.protocol with
    | none => none
    | some pl => some { p with payload := pl }

/-- Embedding of `to_tuple`: the flow-key extractor. Only a TCP payload
yields a key; the trailing `return tup` of the Python code returns the
reversed tuple computed in the `flip` branch. -/
def to_tuple (ippacket : IPPacket) (flip : Bool) :
    Option ((Nat × Nat × Nat × Nat) × Nat × (Nat × Nat × Nat × Nat) × Nat) :=
  match ippacket.payload, flip with
  | some (TLPacket.tcp payload), false =>
      some (ippacket.src_ip, payload.src_port, ippacket.dst_ip, payload.dst_port)
  | some (TLPacket.tcp payload), true =>
      some (ippacket.dst_ip, payload.dst_port, ippacket.src_ip, payload.src_port)
  | _, _ => none

/-- Keys of the Python name dictionaries: `ICMP_TYPES` is keyed by ints,
`ICMP_CODES` by (type, code) pairs; `dict.get` may be handed either shape. -/
inductive PyKey where
  | int : Nat → PyKey
  | pair : Nat → Nat → PyKey
deriving DecidableEq

/-- Model of Python `dict.get(k, default)` over an association list. -/
def dictGet (d : List (PyKey × String)) (k : PyKey) (dflt : String) : String :=
  match d.find? (fun kv => decide (kv.1 = k)) with
  | some kv => kv.2
  | none => dflt

/-- Embedding of the `ICMP_TYPES` table. -/
def ICMP_TYPES : List (PyKey × String) :=
  [ (PyKey.int 0, "Echo Reply"),
    (PyKey.int 1, "Reserved"),
    (PyKey.int 2, "Reserved"),
    (PyKey.int 3, "Destination Unreachable"),
    (PyKey.int 4, "Source Quench"),
    (PyKey.int 5, "Redirect"),
    (PyKey.int 8, "Echo Request"),
    (PyKey.int 9, "Router Advertisement"),
    (PyKey.int 10, "Router Solicitation"),
    (PyKey.int 11, "Time Exceeded"),
    (PyKey.int 12, "Parameter Problem: Bad IP Header"),
    (PyKey.int 13, "Timestamp"),
    (PyKey.int 14, "Timestamp Reply"),
    (PyKey.int 15, "Information Request"),
    (PyKey.int 16, "Information Reply"),
    (PyKey.int 17, "Address Mask Request"),
    (PyKey.int 18, "Address Mask Reply"),
    (PyKey.int 30, "Traceroute") ]

/-- Embedding of the `ICMP_CODES` table, keyed by (type, code) pairs. -/
def ICMP_CODES : List (PyKey × String) :=
  [ (PyKey.pair 0 0, "Echo reply"),
    (PyKey.pair 3 0, "Destination network unreachable"),
    (PyKey.pair 3 1, "Destination host unreachable"),
    (PyKey.pair 3 2, "Destination protocol unreachable"),
    (PyKey.pair 3 3, "Destination port unreachable"),
    (PyKey.pair 3 4, "Fragmentation required, and DF flag set"),
    (PyKey.pair 3 5, "Source route failed"),
    (PyKey.pair 3 6, "Destination network unknown"),
    (PyKey.pair 3 7, "Destination host unknown"),
    (PyKey.pair 3 8, "Source host isolated"),
    (PyKey.pair 3 9, "Network administratively prohibited"),
    (PyKey.pair 3 10, "Host administratively prohibited"),
    (PyKey.pair 3 11, "Network unreachable for TOS"),
    (PyKey.pair 3 12, "Host unreachable for TOS"),
    (PyKey.pair 3 13, "Communication administratively prohibited"),
    (PyKey.pair 3 14, "Host Precedence Violation"),
    (PyKey.pair 3 15, "Precedence cutoff in effect"),
    (PyKey.pair 5 0, "Redirect Datagram for the Network"),
    (PyKey.pair 5 1, "Redirect Datagram for the Host"),
    (PyKey.pair 5 2, "Redirect Datagram for the TOS & network"),
    (PyKey.pair 5 3, "Redirect Datagram for the TOS & host"),
    (PyKey.pair 11 0, "TTL expired in transit"),
    (PyKey.pair 11 1, "Fragment reassembly time exceeded"),
    (PyKey.pair 12 0, "Pointer indicates the error"),
    (PyKey.pair 12 1, "Missing a required option"),
    (PyKey.pair 12 2, "Bad length") ]

/-- Embedding of `ICMPPacket.__unicode__`: note the code-name lookup uses the
bare `code` int as the key (`ICMP_CODES.get(self.code, ...)`), exactly as the
source does. -/
def ICMPPacket.unicode (p : ICMPPacket) : String :=
  "ICMP Type " ++ toString p.type ++ " (" ++
    dictGet ICMP_TYPES (PyKey.int p.type) "Unknown" ++
  ") Code " ++ toString p.code ++ " (" ++
    dictGet ICMP_CODES (PyKey.int p.code) "Unknown" ++ ")"

/-- Discriminator for the key shapes of the name dictionaries. -/
def PyKey.isPair : PyKey → Bool
  | PyKey.pair _ _ => true
  | PyKey.int _ => false

/-- Concrete 20-byte TCP slice whose flags/offset field (bytes 12 and 13)
is 0x5018: data offset nibble 5, ACK and PSH bits set. -/
def buffC1 : List Nat :=
  [0, 0, 0, 0, 0, 0, 0, 0, 0, 0, 0, 0, 0x50, 0x18, 0, 0, 0, 0, 0, 0]

/-- TCPPacket decoded from `buffC1` (what the code actually produces). -/
def tC1 : TCPPacket :=
  { src_port := 0, dst_port := 0, seq_num := 0, ack_num := 0,
    data_offset := 0x5000, flag_ns := 0, flag_cwr := 0, flag_ece := 0,
    flag_urg := 0, flag_ack := 0x10, flag_psh := 0x8, flag_rst := 0,
    flag_syn := 0, flag_fin := 0, win_size := 0, checksum := 0, urg_ptr := 0,
    options := [], total_length := 20 }

/-- Concrete TCPPacket with source port 54321 and destination port 80
(the flow-key scenario of the spec). -/
def tcpEx : TCPPacket :=
  { src_port := 54321, dst_port := 80, seq_num := 0, ack_num := 0,
    data_offset := 0x5000, flag_ns := 0, flag_cwr := 0, flag_ece := 0,
    flag_urg := 0, flag_ack := 0x10, flag_psh := 0, flag_rst := 0,
    flag_syn := 0, flag_fin := 0, win_size := 0, checksum := 0, urg_ptr := 0,
    options := [], total_length := 20 }

/-- Concrete IPPacket from 10.0.0.1 to 10.0.0.2 carrying `tcpEx`. -/
def ipEx : IPPacket :=
  { version := 4, ihl := 5, dscp := 0, ecn := 0, total_length := 40, id := 0,
    flags := 0, frag_offset := 0, ttl := 64, protocol := 6, checksum := 0,
    src_ip := (10, 0, 0, 1), dst_ip := (10, 0, 0, 2), options := [],
    payload := some (TLPacket.tcp tcpEx) }

/-- Concrete IPPacket like `ipEx` but with no payload. -/
def ipExU : IPPacket :=
  { version := 4, ihl := 5, dscp := 0, ecn := 0, total_length := 40, id := 0,
    flags := 0, frag_offset := 0, ttl := 64, protocol := 47, checksum := 0,
    src_ip := (10, 0, 0, 1), dst_ip := (10, 0, 0, 2), options := [],
    payload := none }

/-- Concrete 20-byte IP buffer whose IHL nibble is 0 (byte 0 is 0x40) and
whose protocol (byte 9) is 0, so decoding succeeds with an absent payload. -/
def buffIhl0 : List Nat := 0x40 :: List.replicate 19 0

/-- Concrete 20-byte IP buffer whose second byte is 7, exercising the ECN
mask; protocol 0, so decoding succeeds with an absent payload. -/
def buffEcn : List Nat := [0x45, 7] ++ List.replicate 18 0

/-- Concrete well-formed 20-byte IP buffer with protocol 0. -/
def buffStd : List Nat :=
  [0x45, 0, 0, 40, 0, 0, 0, 0, 64, 0, 0, 0, 10, 0, 0, 1, 10, 0, 0, 2]

/-- IPPacket decoded from `buffStd`. -/
def pStd : IPPacket :=
  { version := 4, ihl := 5, dscp := 0, ecn := 0, total_length := 40, id := 0,
    flags := 0, frag_offset := 0, ttl := 64, protocol := 0, checksum := 0,
    src_ip := (10, 0, 0, 1), dst_ip := (10, 0, 0, 2), options := [],
    payload := none }

/-- IPPacket parsed (header only) from `buffEcn`. -/
def pEcn : IPPacket :=
  { version := 4, ihl := 5, dscp := 0, ecn := 7, total_length := 0, id := 0,
    flags := 0, frag_offset := 0, ttl := 0, protocol := 0, checksum := 0,
    src_ip := (0, 0, 0, 0), dst_ip := (0, 0, 0, 0), options := [],
    payload := none }

/-- Concrete 20-byte IP buffer declaring protocol 6 (TCP) but carrying no
payload bytes at all: the TCP decoder gets an empty slice. -/
def ipTruncBuf : List Nat :=
  [0x45, 0, 0, 0, 0, 0, 0, 0, 0, 6, 0, 0, 10, 0, 0, 1, 10, 0, 0, 2]

/-- Concrete 20-byte IP buffer declaring protocol 17 (UDP) with no payload
bytes. -/
def ipTruncBufU : List Nat :=
  [0x45, 0, 0, 0, 0, 0, 0, 0, 0, 17, 0, 0, 0, 0, 0, 0, 0, 0, 0, 0]

/-- Header parsed from `ipTruncBufU`. -/
def pTruncU : IPPacket :=
  { version := 4, ihl := 5, dscp := 0, ecn := 0, total_length := 0, id := 0,
    flags := 0, frag_offset := 0, ttl := 0, protocol := 17, checksum := 0,
    src_ip := (0, 0, 0, 0), dst_ip := (0, 0, 0, 0), options := [],
    payload := none }

/-- Classifier of a dispatch result: did it produce a TCP payload? -/
def isTcpPayload : Option (Option TLPacket) → Bool
  | some (some (TLPacket.tcp _)) => true
  | _ => false

/-- Classifier of a dispatch result: did it produce a UDP payload? -/
def isUdpPayload : Option (Option TLPacket) → Bool
  | some (some (TLPacket.udp _)) => true
  | _ => false

/-- Classifier of a dispatch result: did it produce an ICMP payload? -/
def isIcmpPayload : Option (Option TLPacket) → Bool
  | some (some (TLPacket.icmp _)) => true
  | _ => false

/-! Helper lemmas about the byte-level readers. -/

lemma getElem?_some_lt {l : List Nat} {n v : Nat} (h : l[n]? = some v) :
    n < l.length := by
  by_contra hc
  rw [List.getElem?_eq_none (by omega)] at h
  exact Option.noConfusion h

lemma read16_some_lt {buff : List Nat} {i v : Nat} (h : read16 buff i = some v) :
    i + 1 < buff.length := by
  simp only [read16, Option.bind_eq_some] at h
  obtain ⟨a, _, b, hb, _⟩ := h
  exact getElem?_some_lt hb

lemma read16_isSome (buff : List Nat) (i : Nat) (h : i + 1 < buff.length) :
    (read16 buff i).isSome = true := by
  simp [read16, List.getElem?_eq_getElem (show i < buff.length by omega),
        List.getElem?_eq_getElem h]

lemma read32_isSome (buff : List Nat) (i : Nat) (h : i + 3 < buff.length) :
    (read32 buff i).isSome = true := by
  obtain ⟨x, hx⟩ := Option.isSome_iff_exists.mp (read16_isSome buff i (by omega))
  obtain ⟨y, hy⟩ := Option.isSome_iff_exists.mp (read16_isSome buff (i+2) (by omega))
  simp [read32, hx, hy]

lemma pySlice_length (l : List Nat) (a b : Nat) :
    (pySlice l a b).length = min b l.length - a := by
  simp [pySlice]

lemma inet_ntoa_some_length {s : List Nat} {x : Nat × Nat × Nat × Nat}
    (h : inet_ntoa s = some x) : s.length = 4 := by
  rcases s with _ | ⟨a, _ | ⟨b, _ | ⟨c, _ | ⟨d, _ | ⟨e, t⟩⟩⟩⟩⟩ <;>
    simp_all [inet_ntoa]

lemma inet_ntoa_isSome (s : List Nat) (h : s.length = 4) :
    (inet_ntoa s).isSome = true := by
  rcases s with _ | ⟨a, _ | ⟨b, _ | ⟨c, _ | ⟨d, _ | ⟨e, t⟩⟩⟩⟩⟩ <;>
    simp_all [inet_ntoa]

/-! Inversion and success lemmas for the four decoders. -/

lemma tcp_parse_inv {buff : List Nat} {t : TCPPacket}
    (h : TCPPacket.parse buff = some t) :
    ∃ sp dp seq ack flags win ck up,
      read16 buff 0 = some sp ∧ read16 buff 2 = some dp ∧
      read32 buff 4 = some seq ∧ read32 buff 8 = some ack ∧
      read16 buff 12 = some flags ∧ read16 buff 14 = some win ∧
      read16 buff 16 = some ck ∧ read16 buff 18 = some up ∧
      t = { src_port := sp, dst_port := dp, seq_num := seq, ack_num := ack,
            data_offset := flags &&& 0xF000,
            flag_ns := flags &&& 0x0100, flag_cwr := flags &&& 0x0080,
            flag_ece := flags &&& 0x0040, flag_urg := flags &&& 0x0020,
            flag_ack := flags &&& 0x0010, flag_psh := flags &&& 0x0008,
            flag_rst := flags &&& 0x0004, flag_syn := flags &&& 0x0002,
            flag_fin := flags &&& 0x0001,
            win_size := win, checksum := ck, urg_ptr := up,
            options := pySlice buff 20 ((flags &&& 0xF000) * 4),
            total_length := buff.length } := by
  simp only [TCPPacket.parse, Option.bind_eq_some, Option.some.injEq] at h
  obtain ⟨sp, h0, dp, h2, seq, h4, ack, h8, flags, h12, win, h14, ck, h16,
          up, h18, ht⟩ := h
  exact ⟨sp, dp, seq, ack, flags, win, ck, up,
         h0, h2, h4, h8, h12, h14, h16, h18, ht.symm⟩

lemma tcp_parse_some_length {buff : List Nat} {t : TCPPacket}
    (h : TCPPacket.parse buff = some t) : 20 ≤ buff.length := by
  obtain ⟨_, _, _, _, _, _, _, up, _, _, _, _, _, _, _, h18, _⟩ :=
    tcp_parse_inv h
  have := read16_some_lt h18
  omega

lemma tcp_parse_isSome (buff : List Nat) (h : 20 ≤ buff.length) :
    (TCPPacket.parse buff).isSome = true := by
  obtain ⟨a0, h0⟩ := Option.isSome_iff_exists.mp (read16_isSome buff 0 (by omega))
  obtain ⟨a2, h2⟩ := Option.isSome_iff_exists.mp (read16_isSome buff 2 (by omega))
  obtain ⟨a4, h4⟩ := Option.isSome_iff_exists.mp (read32_isSome buff 4 (by omega))
  obtain ⟨a8, h8⟩ := Option.isSome_iff_exists.mp (read32_isSome buff 8 (by omega))
  obtain ⟨a12, h12⟩ := Option.isSome_iff_exists.mp (read16_isSome buff 12 (by omega))
  obtain ⟨a14, h14⟩ := Option.isSome_iff_exists.mp (read16_isSome buff 14 (by omega))
  obtain ⟨a16, h16⟩ := Option.isSome_iff_exists.mp (read16_isSome buff 16 (by omega))
  obtain ⟨a18, h18⟩ := Option.isSome_iff_exists.mp (read16_isSome buff 18 (by omega))
  simp [TCPPacket.parse, h0, h2, h4, h8, h12, h14, h16, h18]

lemma udp_parse_some_length {buff : List Nat} {u : UDPPacket}
    (h : UDPPacket.parse buff = some u) : 8 ≤ buff.length := by
  simp only [UDPPacket.parse, Option.bind_eq_some, Option.some.injEq] at h
  obtain ⟨sp, h0, dp, h2, ln, h4, ck, h6, _⟩ := h
  have := read16_some_lt h6
  omega

lemma udp_parse_isSome (buff : List Nat) (h : 8 ≤ buff.length) :
    (UDPPacket.parse buff).isSome = true := by
  obtain ⟨a0, h0⟩ := Option.isSome_iff_exists.mp (read16_isSome buff 0 (by omega))
  obtain ⟨a2, h2⟩ := Option.isSome_iff_exists.mp (read16_isSome buff 2 (by omega))
  obtain ⟨a4, h4⟩ := Option.isSome_iff_exists.mp (read16_isSome buff 4 (by omega))
  obtain ⟨a6, h6⟩ := Option.isSome_iff_exists.mp (read16_isSome buff 6 (by omega))
  simp [UDPPacket.parse, h0, h2, h4, h6]

lemma icmp_parse_some_length {buf : List Nat} {p : ICMPPacket}
    (h : ICMPPacket.parse buf = some p) : 4 ≤ buf.length := by
  simp only [ICMPPacket.parse, Option.bind_eq_some, Option.some.injEq] at h
  obtain ⟨ty, h0, co, h1, ck, h2, _⟩ := h
  have := read16_some_lt h2
  omega

lemma icmp_parse_isSome (buf : List Nat) (h : 4 ≤ buf.length) :
    (ICMPPacket.parse buf).isSome = true := by
  obtain ⟨a2, h2⟩ := Option.isSome_iff_exists.mp (read16_isSome buf 2 (by omega))
  simp [ICMPPacket.parse,
        List.getElem?_eq_getElem (show 0 < buf.length by omega),
        List.getElem?_eq_getElem (show 1 < buf.length by omega), h2]

lemma ip_parseHeader_inv {buff : List Nat} {q : IPPacket}
    (h : IPPacket.parseHeader buff = some q) :
    ∃ v_ihl dscp_ecn tl idf flag_frag ttl proto ck src dst,
      buff[0]? = some v_ihl ∧ buff[1]? = some dscp_ecn ∧
      read16 buff 2 = some tl ∧ read16 buff 4 = some idf ∧
      read16 buff 6 = some flag_frag ∧ buff[8]? = some ttl ∧
      buff[9]? = some proto ∧ read16 buff 10 = some ck ∧
      inet_ntoa (pySlice buff 12 16) = some src ∧
      inet_ntoa (pySlice buff 16 20) = some dst ∧
      q = { version := (v_ihl >>> 4) &&& 0xF, ihl := v_ihl &&& 0xF,
            dscp := (dscp_ecn >>> 3) &&& 0x1F, ecn := dscp_ecn &&& 0x7,
            total_length := tl, id := idf,
            flags := (flag_frag >>> 13) &&& 0x7,
            frag_offset := flag_frag &&& 0x1FFF,
            ttl := ttl, protocol := proto, checksum := ck,
            src_ip := src, dst_ip := dst,
            options := pySlice buff 20 ((v_ihl &&& 0xF) * 4),
            payload := none } := by
  simp only [IPPacket.parseHeader, Option.bind_eq_some, Option.some.injEq] at h
  obtain ⟨v, h0, d, h1, tl, h2, idf, h4, ff, h6, ttl, h8, proto, h9,
          ck, h10, src, h12, dst, h16, ht⟩ := h
  exact ⟨v, d, tl, idf, ff, ttl, proto, ck, src, dst,
         h0, h1, h2, h4, h6, h8, h9, h10, h12, h16, ht.symm⟩

lemma ip_parseHeader_some_length {buff : List Nat} {q : IPPacket}
    (h : IPPacket.parseHeader buff = some q) : 20 ≤ buff.length := by
  obtain ⟨_, _, _, _, _, _, _, _, _, dst, _, _, _, _, _, _, _, _, _, h16, _⟩ :=
    ip_parseHeader_inv h
  have hlen := inet_ntoa_some_length h16
  rw [pySlice_length] at hlen
  omega

lemma ip_parseHeader_isSome (buff : List Nat) (h : 20 ≤ buff.length) :
    (IPPacket.parseHeader buff).isSome = true := by
  obtain ⟨a2, h2⟩ := Option.isSome_iff_exists.mp (read16_isSome buff 2 (by omega))
  obtain ⟨a4, h4⟩ := Option.isSome_iff_exists.mp (read16_isSome buff 4 (by omega))
  obtain ⟨a6, h6⟩ := Option.isSome_iff_exists.mp (read16_isSome buff 6 (by omega))
  obtain ⟨a10, h10⟩ := Option.isSome_iff_exists.mp (read16_isSome buff 10 (by omega))
  obtain ⟨src, h12⟩ := Option.isSome_iff_exists.mp
    (inet_ntoa_isSome (pySlice buff 12 16) (by rw [pySlice_length]; omega))
  obtain ⟨dst, h16⟩ := Option.isSome_iff_exists.mp
    (inet_ntoa_isSome (pySlice buff 16 20) (by rw [pySlice_length]; omega))
  simp [IPPacket.parseHeader,
        List.getElem?_eq_getElem (show 0 < buff.length by omega),
        List.getElem?_eq_getElem (show 1 < buff.length by omega),
        List.getElem?_eq_getElem (show 8 < buff.length by omega),
        List.getElem?_eq_getElem (show 9 < buff.length by omega),
        h2, h4, h6, h10, h12, h16]

lemma ip_decode_inv {buff : List Nat} {p : IPPacket}
    (h : IPPacket.decode buff = some p) :
    ∃ q pl, IPPacket.parseHeader buff = some q ∧
      payload_builder (buff.drop q.get_header_len) q.protocol = some pl ∧
      p = { q with payload := pl } := by
  unfold IPPacket.decode at h
  split at h
  · exact Option.noConfusion h
  · rename_i q hq
    split at h
    · exact Option.noConfusion h
    · rename_i pl hpl
      exact ⟨q, pl, hq, hpl, (Option.some.inj h).symm⟩

lemma dictGet_int_eq_default {d : List (PyKey × String)}
    (h : ∀ kv ∈ d, kv.1.isPair = true) (c : Nat) (dflt : String) :
    dictGet d (PyKey.int c) dflt = dflt := by
  have hnone : d.find? (fun kv => decide (kv.1 = PyKey.int c)) = none := by
    apply List.find?_eq_none.mpr
    intro kv hkv
    have := h kv hkv
    cases hk : kv.1 with
    | int n => rw [hk] at this; exact Bool.noConfusion this
    | pair a b => simp [hk]
  rw [dictGet, hnone]

/-- C1: for a 20-byte TCP slice whose flags/offset field is 0x5018, the code
is expected to yield data_offset 5 (the top nibble), header_length 20 and
data_length 0; it actually stores `flags & 0xF000` unshifted, yielding
data_offset 20480, header_length 81920 and data_length 20 − 81920 = −81900,
so the claim describes the intent and the code has dropped the 12-bit shift. -/
theorem c1_tcp_data_offset_missing_shift :
    (TCPPacket.parse buffC1).map
        (fun t => (t.data_offset, t.get_header_len, t.get_data_len)) =
      some (20480, 81920, (-81900 : Int)) ∧
    (TCPPacket.parse buffC1).map TCPPacket.get_header_len ≠ some (5 * 4) := by
  constructor
  · rfl
  · decide

/-- C2 counterexample: a 7-byte buffer is below the claimed 8-byte ICMP
minimum, yet the ICMP decoder succeeds and produces an entity (only the
first 4 bytes are required; `rest = buf[4:8]` is a lenient slice). -/
theorem c2_icmp_short_buffer_counterexample :
    ICMPPacket.parse (List.replicate 7 0) =
      some { type := 0, code := 0, checksum := 0, rest := [0, 0, 0] } := by
  decide

/-- C2 (amended): a buffer shorter than the true minimum of the layer being
decoded (20 bytes for IP, 20 for TCP, 8 for UDP, but 4 for ICMP) makes the
decoder fail with no partial entity. -/
theorem c2_truncated_minimums (buff : List Nat) :
    (buff.length < 20 → IPPacket.decode buff = none) ∧
    (buff.length < 20 → TCPPacket.parse buff = none) ∧
    (buff.length < 8 → UDPPacket.parse buff = none) ∧
    (buff.length < 4 → ICMPPacket.parse buff = none) := by
  refine ⟨?_, ?_, ?_, ?_⟩
  · intro hlen
    cases hq : IPPacket.parseHeader buff with
    | none => simp [IPPacket.decode, hq]
    | some q => exact absurd (ip_parseHeader_some_length hq) (by omega)
  · intro hlen
    cases hp : TCPPacket.parse buff with
    | none => rfl
    | some t => exact absurd (tcp_parse_some_length hp) (by omega)
  · intro hlen
    cases hp : UDPPacket.parse buff with
    | none => rfl
    | some u => exact absurd (udp_parse_some_length hp) (by omega)
  · intro hlen
    cases hp : ICMPPacket.parse buff with
    | none => rfl
    | some p => exact absurd (icmp_parse_some_length hp) (by omega)

/-- C2 witness: the amended theorem applied to a concrete 3-byte buffer. -/
theorem c2_truncated_minimums_witness :
    IPPacket.decode [0, 0, 0] = none ∧ TCPPacket.parse [0, 0, 0] = none ∧
    UDPPacket.parse [0, 0, 0] = none ∧ ICMPPacket.parse [0, 0, 0] = none :=
  ⟨(c2_truncated_minimums [0, 0, 0]).1 (by decide),
   (c2_truncated_minimums [0, 0, 0]).2.1 (by decide),
   (c2_truncated_minimums [0, 0, 0]).2.2.1 (by decide),
   (c2_truncated_minimums [0, 0, 0]).2.2.2 (by decide)⟩

/-- C5: the ICMP rendering looks up the type name by `type` (correctly),
but looks up the code name with the bare `code` int against a table keyed by
(type, code) pairs, so the code name renders "Unknown" even for the pair
(0, 0) that the table contains: the lookup can never hit. -/
theorem c5_icmp_code_name_lookup_bug :
    (ICMPPacket.parse [0, 0, 0, 0, 0, 0, 0, 0]).map ICMPPacket.unicode =
      some "ICMP Type 0 (Echo Reply) Code 0 (Unknown)" ∧
    dictGet ICMP_CODES (PyKey.pair 0 0) "Unknown" = "Echo reply" ∧
    (∀ c : Nat, dictGet ICMP_CODES (PyKey.int c) "Unknown" = "Unknown") := by
  refine ⟨rfl, rfl, fun c => dictGet_int_eq_default (by decide) c "Unknown"⟩

/-- C3: the flow-key extractor returns no key unless the payload is a
TCPPacket; with the direction flag unset it returns (src addr, src port,
dst addr, dst port); with it set, the trailing `return tup` of the source
does return the reversed tuple (dst addr, dst port, src addr, src port). -/
theorem c3_to_tuple_spec (ip : IPPacket) :
    ((∀ t, ip.payload ≠ some (TLPacket.tcp t)) →
        ∀ fl : Bool, to_tuple ip fl = none) ∧
    (∀ t, ip.payload = some (TLPacket.tcp t) →
        to_tuple ip false = some (ip.src_ip, t.src_port, ip.dst_ip, t.dst_port) ∧
        to_tuple ip true = some (ip.dst_ip, t.dst_port, ip.src_ip, t.src_port)) := by
  constructor
  · intro hnt fl
    cases hp : ip.payload with
    | none => cases fl <;> simp [to_tuple, hp]
    | some tl =>
      cases tl with
      | tcp t => exact absurd hp (hnt t)
      | udp u => cases fl <;> simp [to_tuple, hp]
      | icmp i => cases fl <;> simp [to_tuple, hp]
  · intro t hp
    exact ⟨by simp [to_tuple, hp], by simp [to_tuple, hp]⟩

/-- C3 witness: the spec's concrete scenario, source 10.0.0.1 port 54321 to
destination 10.0.0.2 port 80, plus a packet with an absent payload. -/
theorem c3_to_tuple_spec_witness :
    to_tuple ipEx false = some ((10, 0, 0, 1), 54321, (10, 0, 0, 2), 80) ∧
    to_tuple ipEx true = some ((10, 0, 0, 2), 80, (10, 0, 0, 1), 54321) ∧
    to_tuple ipExU false = none := by
  refine ⟨((c3_to_tuple_spec ipEx).2 tcpEx rfl).1,
          ((c3_to_tuple_spec ipEx).2 tcpEx rfl).2,
          (c3_to_tuple_spec ipExU).1 (fun t h => ?_) false⟩
  simp [ipExU] at h

/-- C4 counterexample: on a packet carrying a TCP payload the flip flag does
change the returned value, so the claim that it has no observable effect is
false (the forward tuple carries port 54321 second; the flipped one
carries port 80 second). -/
theorem c4_flip_no_effect_counterexample :
    to_tuple ipEx true ≠ to_tuple ipEx false := by
  have h1 : to_tuple ipEx true =
      some ((10, 0, 0, 2), 80, (10, 0, 0, 1), 54321) := rfl
  have h2 : to_tuple ipEx false =
      some ((10, 0, 0, 1), 54321, (10, 0, 0, 2), 80) := rfl
  rw [h1, h2]
  intro h
  have hport : (80 : Nat) = 54321 :=
    congrArg (fun x => x.2.1) (Option.some.inj h)
  exact absurd hport (by decide)

/-- C4 (amended): the flip flag does have an observable effect: with it set
the extractor returns the reversed tuple, which differs from the unflipped
tuple whenever the two endpoints differ. -/
theorem c4_flip_swaps (ip : IPPacket) (t : TCPPacket)
    (h : ip.payload = some (TLPacket.tcp t))
    (hne : ip.src_ip ≠ ip.dst_ip ∨ t.src_port ≠ t.dst_port) :
    to_tuple ip true = some (ip.dst_ip, t.dst_port, ip.src_ip, t.src_port) ∧
    to_tuple ip true ≠ to_tuple ip false := by
  have htru : to_tuple ip true =
      some (ip.dst_ip, t.dst_port, ip.src_ip, t.src_port) := by
    simp [to_tuple, h]
  have hfls : to_tuple ip false =
      some (ip.src_ip, t.src_port, ip.dst_ip, t.dst_port) := by
    simp [to_tuple, h]
  refine ⟨htru, ?_⟩
  rw [htru, hfls]
  intro heq
  have hinj := Option.some.inj heq
  rcases hne with hs | hp
  · exact hs (congrArg Prod.fst hinj).symm
  · exact hp (congrArg (fun x => x.2.1) hinj).symm

/-- C4 witness: the amended theorem applied to the concrete scenario. -/
theorem c4_flip_swaps_witness :
    to_tuple ipEx true = some ((10, 0, 0, 2), 80, (10, 0, 0, 1), 54321) ∧
    to_tuple ipEx true ≠ to_tuple ipEx false :=
  c4_flip_swaps ipEx tcpEx rfl (Or.inr (by decide))

/-- C6 counterexample: a 20-byte buffer whose first byte is 0x40 (version 4,
IHL nibble 0) decodes to an IPPacket with header_length 0, violating the
claimed lower bound of 20; the decoder never validates IHL ≥ 5. -/
theorem c6_lower_bound_counterexample :
    (IPPacket.decode buffIhl0).map IPPacket.get_header_len = some 0 ∧
    ¬ (20 ≤ (0 : Nat)) :=
  ⟨rfl, by decide⟩

/-- C6 (amended): for every decoded IPPacket, header_length() = IHL × 4
(IHL the low nibble of byte 0) and header_length() ≤ 60; the lower bound of
20 holds only when IHL ≥ 5, which is not enforced. -/
theorem c6_header_len (buff : List Nat) (p : IPPacket) (b0 : Nat)
    (hd : IPPacket.decode buff = some p) (hb : buff[0]? = some b0) :
    p.get_header_len = (b0 &&& 0xF) * 4 ∧ p.get_header_len ≤ 60 := by
  obtain ⟨q, pl, hq, hpl, hp⟩ := ip_decode_inv hd
  obtain ⟨v, d, tl, idf, ff, ttl, proto, ck, src, dst,
          h0, _, _, _, _, _, _, _, _, _, hqeq⟩ := ip_parseHeader_inv hq
  have hv : v = b0 := Option.some.inj (h0.symm.trans hb)
  subst hp
  subst hqeq
  subst hv
  refine ⟨rfl, ?_⟩
  show (v &&& 0xF) * 4 ≤ 60
  have h15 : v &&& 0xF ≤ 0xF := Nat.and_le_right
  omega

/-- C6 witness: the amended theorem applied to a concrete well-formed
buffer with first byte 0x45. -/
theorem c6_header_len_witness :
    pStd.get_header_len = (0x45 &&& 0xF) * 4 ∧ pStd.get_header_len ≤ 60 :=
  c6_header_len buffStd pStd 0x45 (by rfl) (by rfl)

/-- C7: the payload dispatcher yields a TCP packet for protocol 6 (given a
slice long enough for the TCP decoder, 20 bytes), a UDP packet for 17 (8
bytes suffice), an ICMP packet for 1 (4 bytes suffice), and an absent
payload — not an error — for every other protocol number. -/
theorem c7_payload_dispatch (buff : List Nat) (protocol : Nat) :
    (protocol = 6 → 20 ≤ buff.length →
        isTcpPayload (payload_builder buff protocol) = true) ∧
    (protocol = 17 → 8 ≤ buff.length →
        isUdpPayload (payload_builder buff protocol) = true) ∧
    (protocol = 1 → 4 ≤ buff.length →
        isIcmpPayload (payload_builder buff protocol) = true) ∧
    (protocol ≠ 6 → protocol ≠ 17 → protocol ≠ 1 →
        payload_builder buff protocol = some none) := by
  refine ⟨?_, ?_, ?_, ?_⟩
  · rintro rfl hlen
    obtain ⟨t, ht⟩ := Option.isSome_iff_exists.mp (tcp_parse_isSome buff hlen)
    simp [payload_builder, IPPROTO_TCP, ht, isTcpPayload]
  · rintro rfl hlen
    obtain ⟨u, hu⟩ := Option.isSome_iff_exists.mp (udp_parse_isSome buff hlen)
    simp [payload_builder, IPPROTO_TCP, IPPROTO_UDP, hu, isUdpPayload]
  · rintro rfl hlen
    obtain ⟨i, hi⟩ := Option.isSome_iff_exists.mp (icmp_parse_isSome buff hlen)
    simp [payload_builder, IPPROTO_TCP, IPPROTO_UDP, IPPROTO_ICMP, hi,
          isIcmpPayload]
  · intro h6 h17 h1
    simp [payload_builder, IPPROTO_TCP, IPPROTO_UDP, IPPROTO_ICMP,
          h6, h17, h1]

/-- C7 witness: the dispatcher applied to concrete buffers and the protocol
numbers 6, 17, 1 and 200. -/
theorem c7_payload_dispatch_witness :
    isTcpPayload (payload_builder (List.replicate 20 0) 6) = true ∧
    isUdpPayload (payload_builder (List.replicate 8 0) 17) = true ∧
    isIcmpPayload (payload_builder (List.replicate 8 0) 1) = true ∧
    payload_builder (List.replicate 8 0) 200 = some none :=
  ⟨(c7_payload_dispatch (List.replicate 20 0) 6).1 rfl (by decide),
   (c7_payload_dispatch (List.replicate 8 0) 17).2.1 rfl (by decide),
   (c7_payload_dispatch (List.replicate 8 0) 1).2.2.1 rfl (by decide),
   (c7_payload_dispatch (List.replicate 8 0) 200).2.2.2
     (by decide) (by decide) (by decide)⟩

/-- C8: each of the nine named flag attributes of a decoded TCPPacket equals
the bitwise AND of the combined 16-bit flags field (bytes 12 and 13) with its
fixed mask, and is truthy exactly when that AND is nonzero: NS 0x0100,
CWR 0x0080, ECE 0x0040, URG 0x0020, ACK 0x0010, PSH 0x0008, RST 0x0004,
SYN 0x0002, FIN 0x0001. -/
theorem c8_tcp_flag_masks (buff : List Nat) (t : TCPPacket) (fl : Nat)
    (h : TCPPacket.parse buff = some t) (hf : read16 buff 12 = some fl) :
    (t.flag_ns = fl &&& 0x0100 ∧ (t.flag_ns ≠ 0 ↔ fl &&& 0x0100 ≠ 0)) ∧
    (t.flag_cwr = fl &&& 0x0080 ∧ (t.flag_cwr ≠ 0 ↔ fl &&& 0x0080 ≠ 0)) ∧
    (t.flag_ece = fl &&& 0x0040 ∧ (t.flag_ece ≠ 0 ↔ fl &&& 0x0040 ≠ 0)) ∧
    (t.flag_urg = fl &&& 0x0020 ∧ (t.flag_urg ≠ 0 ↔ fl &&& 0x0020 ≠ 0)) ∧
    (t.flag_ack = fl &&& 0x0010 ∧ (t.flag_ack ≠ 0 ↔ fl &&& 0x0010 ≠ 0)) ∧
    (t.flag_psh = fl &&& 0x0008 ∧ (t.flag_psh ≠ 0 ↔ fl &&& 0x0008 ≠ 0)) ∧
    (t.flag_rst = fl &&& 0x0004 ∧ (t.flag_rst ≠ 0 ↔ fl &&& 0x0004 ≠ 0)) ∧
    (t.flag_syn = fl &&& 0x0002 ∧ (t.flag_syn ≠ 0 ↔ fl &&& 0x0002 ≠ 0)) ∧
    (t.flag_fin = fl &&& 0x0001 ∧ (t.flag_fin ≠ 0 ↔ fl &&& 0x0001 ≠ 0)) := by
  obtain ⟨sp, dp, seq, ack, flags, win, ck, up,
          _, _, _, _, h12, _, _, _, ht⟩ := tcp_parse_inv h
  have hfl : flags = fl := Option.some.inj (h12.symm.trans hf)
  subst ht
  subst hfl
  exact ⟨⟨rfl, Iff.rfl⟩, ⟨rfl, Iff.rfl⟩, ⟨rfl, Iff.rfl⟩, ⟨rfl, Iff.rfl⟩,
         ⟨rfl, Iff.rfl⟩, ⟨rfl, Iff.rfl⟩, ⟨rfl, Iff.rfl⟩, ⟨rfl, Iff.rfl⟩,
         ⟨rfl, Iff.rfl⟩⟩

/-- C8 witness: the flag theorem applied to the slice `buffC1`, whose
flags field is 0x5018 (ACK and PSH set, all other flags clear). -/
theorem c8_tcp_flag_masks_witness :
    (tC1.flag_ns = 0x5018 &&& 0x0100 ∧
        (tC1.flag_ns ≠ 0 ↔ 0x5018 &&& 0x0100 ≠ 0)) ∧
    (tC1.flag_cwr = 0x5018 &&& 0x0080 ∧
        (tC1.flag_cwr ≠ 0 ↔ 0x5018 &&& 0x0080 ≠ 0)) ∧
    (tC1.flag_ece = 0x5018 &&& 0x0040 ∧
        (tC1.flag_ece ≠ 0 ↔ 0x5018 &&& 0x0040 ≠ 0)) ∧
    (tC1.flag_urg = 0x5018 &&& 0x0020 ∧
        (tC1.flag_urg ≠ 0 ↔ 0x5018 &&& 0x0020 ≠ 0)) ∧
    (tC1.flag_ack = 0x5018 &&& 0x0010 ∧
        (tC1.flag_ack ≠ 0 ↔ 0x5018 &&& 0x0010 ≠ 0)) ∧
    (tC1.flag_psh = 0x5018 &&& 0x0008 ∧
        (tC1.flag_psh ≠ 0 ↔ 0x5018 &&& 0x0008 ≠ 0)) ∧
    (tC1.flag_rst = 0x5018 &&& 0x0004 ∧
        (tC1.flag_rst ≠ 0 ↔ 0x5018 &&& 0x0004 ≠ 0)) ∧
    (tC1.flag_syn = 0x5018 &&& 0x0002 ∧
        (tC1.flag_syn ≠ 0 ↔ 0x5018 &&& 0x0002 ≠ 0)) ∧
    (tC1.flag_fin = 0x5018 &&& 0x0001 ∧
        (tC1.flag_fin ≠ 0 ↔ 0x5018 &&& 0x0001 ≠ 0)) :=
  c8_tcp_flag_masks buffC1 tC1 0x5018 (by decide) (by decide)

/-- C9 counterexample: a 20-byte buffer whose second byte is 7 decodes with
ecn = 7, which could not happen if ecn were the bottom 2 bits (it would be
at most 3): the code masks with 0x7, keeping three bits. -/
theorem c9_ecn_counterexample :
    (IPPacket.decode buffEcn).map IPPacket.ecn = some 7 ∧ ¬ ((7 : Nat) ≤ 3) :=
  ⟨rfl, by decide⟩

/-- C9 (amended): for every decoded IPPacket, dscp is the top 5 bits of
byte 1, and ecn is the bottom three bits of byte 1 (mask 0x7), so ecn is at
most 7 (not at most 3). -/
theorem c9_dscp_ecn (buff : List Nat) (p : IPPacket) (b1 : Nat)
    (hd : IPPacket.decode buff = some p) (hb : buff[1]? = some b1)
    (hlt : b1 < 256) :
    p.dscp = b1 >>> 3 ∧ p.ecn = b1 &&& 0x7 ∧ p.ecn ≤ 7 := by
  obtain ⟨q, pl, hq, hpl, hp⟩ := ip_decode_inv hd
  obtain ⟨v, d, tl, idf, ff, ttl, proto, ck, src, dst,
          _, h1, _, _, _, _, _, _, _, _, hqeq⟩ := ip_parseHeader_inv hq
  have hd1 : d = b1 := Option.some.inj (h1.symm.trans hb)
  subst hp
  subst hqeq
  subst hd1
  refine ⟨?_, rfl, Nat.and_le_right⟩
  show (d >>> 3) &&& 0x1F = d >>> 3
  have h32 : d >>> 3 < 32 := by
    rw [Nat.shiftRight_eq_div_pow]
    omega
  have hmod : d >>> 3 &&& 0x1F = d >>> 3 % 32 := by
    have := Nat.and_pow_two_sub_one_eq_mod (d >>> 3) 5
    norm_num at this
    exact this
  rw [hmod, Nat.mod_eq_of_lt h32]

/-- C9 witness: the amended theorem applied to the buffer whose second byte
is 7. -/
theorem c9_dscp_ecn_witness :
    pEcn.dscp = 7 >>> 3 ∧ pEcn.ecn = 7 &&& 0x7 ∧ pEcn.ecn ≤ 7 :=
  c9_dscp_ecn buffEcn pEcn 7 (by rfl) (by rfl) (by decide)

/-- C10 counterexample: a 20-byte buffer whose protocol field is 6 but which
carries no payload bytes: its IP header parses fine, yet `IPPacket.decode`
yields no packet at all, because the TCP decoder's failure propagates out of
the IPPacket constructor. -/
theorem c10_ip_decode_aborted_counterexample :
    IPPacket.decode ipTruncBuf = none ∧
    (IPPacket.parseHeader ipTruncBuf).isSome = true ∧
    ipTruncBuf.length = 20 :=
  ⟨rfl, rfl, rfl⟩

/-- C10 (amended): when the transport decoder selected by the protocol field
fails on the remaining slice, the failure aborts IPPacket construction: no
IP entity is produced (the claim that the IP layer is unaffected is false). -/
theorem c10_transport_failure_aborts (buff : List Nat) (q : IPPacket)
    (hq : IPPacket.parseHeader buff = some q)
    (hp : payload_builder (buff.drop q.get_header_len) q.protocol = none) :
    IPPacket.decode buff = none := by
  simp only [IPPacket.decode, hq, hp]

/-- C10 witness: the amended theorem applied to a 20-byte buffer declaring
protocol 17 with an empty remaining slice. -/
theorem c10_transport_failure_aborts_witness :
    IPPacket.decode ipTruncBufU = none :=
  c10_transport_failure_aborts ipTruncBufU pTruncU (by rfl) (by rfl)
